import Mathlib

/-!
A shallow embedding in Lean 4 of the FSMConfig transition engine
(`state_machine.cpp`, `callback_registry.cpp`, `variable_manager.cpp`,
`types.cpp`, plus the parts of `config_parser.cpp` the engine queries),
together with theorems settling the specification claims about it.

Modelling conventions:
* `std::map<std::string, T>` is modelled by an association list `StrMap T`
  with insert-or-assign (`StrMap.insert`) and `StrMap.lookup`; the claims
  never observe iteration order, only lookups and whole-map assignment.
* C++ callables (`std::function`) are modelled by identifiers (`Nat`); an
  empty `std::function` is `Option.none` at registration sites.  A guard
  callable additionally carries the boolean it returns (`GuardCB`).
* Side effects (callback invocations, observer notifications, the
  current-state assignment, error-handler calls) are reified as an
  explicit `Effect` trace; an operation returns the machine after the
  call, the trace of effects in execution order, and an optional raised
  exception (`FsmError`, modelling `throw`).
* The C++ references returned by `VariableManager::getGlobalVariables` /
  `getStateVariables` are modelled by handles (`VarsRef`) that are
  dereferenced against a (possibly later) manager state.
-/

set_option autoImplicit false

namespace FSMConfig

/-- `VariableValue` (`types.hpp`/`types.cpp`): tagged scalar with union
payload.  The C++ `float` payload is modelled by Lean `Float`; no claim
inspects a float payload. -/
inductive VariableValue : Type where
  | int (v : Int)
  | float (v : Float)
  | string (v : String)
  | bool (v : Bool)

/-- `VariableValue::VariableValue()` : `type = INT`, `int_value = 0`. -/
def VariableValue.default : VariableValue := VariableValue.int 0

/-- `std::bad_cast` thrown by the typed accessors. -/
inductive AccessError : Type where
  | typeMismatch
deriving DecidableEq

/-- `VariableValue::asInt` : value if the tag is `INT`, else `std::bad_cast`. -/
def VariableValue.asInt : VariableValue → Except AccessError Int
  | VariableValue.int v => Except.ok v
  | _ => Except.error AccessError.typeMismatch

/-- `VariableValue::asFloat`. -/
def VariableValue.asFloat : VariableValue → Except AccessError Float
  | VariableValue.float v => Except.ok v
  | _ => Except.error AccessError.typeMismatch

/-- `VariableValue::asString`. -/
def VariableValue.asString : VariableValue → Except AccessError String
  | VariableValue.string v => Except.ok v
  | _ => Except.error AccessError.typeMismatch

/-- `VariableValue::asBool`. -/
def VariableValue.asBool : VariableValue → Except AccessError Bool
  | VariableValue.bool v => Except.ok v
  | _ => Except.error AccessError.typeMismatch

/-- `VariableValue::toString`.  `std::to_string(int)` is decimal rendering;
the float branch approximates `std::to_string(float)` formatting (no claim
depends on it); booleans render `"true"`/`"false"`, strings verbatim. -/
def VariableValue.toString : VariableValue → String
  | VariableValue.int v => ToString.toString v
  | VariableValue.float v => ToString.toString v
  | VariableValue.string v => v
  | VariableValue.bool v => if v then "true" else "false"

/-- Association-list model of `std::map<std::string, α>`. -/
abbrev StrMap (α : Type) : Type := List (String × α)

/-- `map.find(k)` / `map.at(k)` as an `Option`. -/
def StrMap.lookup {α : Type} : StrMap α → String → Option α
  | [], _ => none
  | (k, v) :: rest, n => if k = n then some v else StrMap.lookup rest n

/-- `map[k] = v` : insert-or-assign. -/
def StrMap.insert {α : Type} : StrMap α → String → α → StrMap α
  | [], n, v => [(n, v)]
  | (k, w) :: rest, n, v =>
      if k = n then (n, v) :: rest else (k, w) :: StrMap.insert rest n v

/-- A guard callable (`std::function<bool()>`): identity plus the boolean
it returns when invoked. -/
structure GuardCB : Type where
  id : Nat
  ret : Bool
deriving DecidableEq

/-- `CallbackRegistry` (`callback_registry.cpp`): four independent keyed
namespaces.  Map values are the stored callables (registration never
stores an empty callable). -/
structure CallbackRegistry : Type where
  state_callbacks : StrMap Nat
  transition_callbacks : StrMap Nat
  guards : StrMap GuardCB
  actions : StrMap Nat

/-- `CallbackRegistry::makeStateCallbackKey` : `state + ":" + type`. -/
def makeStateCallbackKey (state_name callback_type : String) : String :=
  state_name ++ ":" ++ callback_type

/-- `CallbackRegistry::makeTransitionCallbackKey` : `from + ":" + to`. -/
def makeTransitionCallbackKey (from_state to_state : String) : String :=
  from_state ++ ":" ++ to_state

/-- `CallbackRegistry::makeGuardKey` : `from + ":" + to + ":" + event`. -/
def makeGuardKey (from_state to_state event_name : String) : String :=
  from_state ++ ":" ++ to_state ++ ":" ++ event_name

/-- `CallbackRegistry::registerStateCallback` : an empty callable is
ignored; otherwise insert-or-assign under the composite key. -/
def registerStateCallback (r : CallbackRegistry) (state_name callback_type : String)
    (callback : Option Nat) : CallbackRegistry :=
  match callback with
  | none => r
  | some c =>
      { r with state_callbacks :=
          StrMap.insert r.state_callbacks (makeStateCallbackKey state_name callback_type) c }

/-- `CallbackRegistry::registerTransitionCallback`. -/
def registerTransitionCallback (r : CallbackRegistry) (from_state to_state : String)
    (callback : Option Nat) : CallbackRegistry :=
  match callback with
  | none => r
  | some c =>
      { r with transition_callbacks :=
          StrMap.insert r.transition_callbacks (makeTransitionCallbackKey from_state to_state) c }

/-- `CallbackRegistry::registerGuard`. -/
def registerGuard (r : CallbackRegistry) (from_state to_state event_name : String)
    (callback : Option GuardCB) : CallbackRegistry :=
  match callback with
  | none => r
  | some c =>
      { r with guards :=
          StrMap.insert r.guards (makeGuardKey from_state to_state event_name) c }

/-- `CallbackRegistry::registerAction`. -/
def registerAction (r : CallbackRegistry) (action_name : String)
    (callback : Option Nat) : CallbackRegistry :=
  match callback with
  | none => r
  | some c =>
      { r with actions := StrMap.insert r.actions action_name c }

/-- `CallbackRegistry::callStateCallback` : fires the stored callable if
found (returning its identity); a missing binding is a no-op (`none`). -/
def callStateCallback (r : CallbackRegistry) (state_name callback_type : String) : Option Nat :=
  StrMap.lookup r.state_callbacks (makeStateCallbackKey state_name callback_type)

/-- `CallbackRegistry::callTransitionCallback`. -/
def callTransitionCallback (r : CallbackRegistry) (from_state to_state : String) : Option Nat :=
  StrMap.lookup r.transition_callbacks (makeTransitionCallbackKey from_state to_state)

/-- `CallbackRegistry::callGuard` : the stored callable's return value if
registered, otherwise `false` (fail-closed). -/
def callGuard (r : CallbackRegistry) (from_state to_state event_name : String) : Bool :=
  match StrMap.lookup r.guards (makeGuardKey from_state to_state event_name) with
  | some g => g.ret
  | none => false

/-- `CallbackRegistry::callAction`. -/
def callAction (r : CallbackRegistry) (action_name : String) : Option Nat :=
  StrMap.lookup r.actions action_name

/-- `CallbackRegistry::hasStateCallback`. -/
def hasStateCallback (r : CallbackRegistry) (state_name callback_type : String) : Bool :=
  (StrMap.lookup r.state_callbacks (makeStateCallbackKey state_name callback_type)).isSome

/-- `CallbackRegistry::hasGuard`. -/
def hasGuard (r : CallbackRegistry) (from_state to_state event_name : String) : Bool :=
  (StrMap.lookup r.guards (makeGuardKey from_state to_state event_name)).isSome

/-- `VariableManager` storage (`variable_manager.cpp`): one global map
plus a map of per-state local maps. -/
structure VariableManager : Type where
  global_variables : StrMap VariableValue
  state_variables : StrMap (StrMap VariableValue)

/-- `VariableManager::setGlobalVariable` : `global_variables[name] = value`. -/
def setGlobalVariable (vm : VariableManager) (name : String) (value : VariableValue) :
    VariableManager :=
  { vm with global_variables := StrMap.insert vm.global_variables name value }

/-- `VariableManager::setStateVariable` :
`state_variables[state_name][name] = value` (the outer `operator[]`
creates an empty inner map when the state is absent). -/
def setStateVariable (vm : VariableManager) (state_name name : String)
    (value : VariableValue) : VariableManager :=
  let inner := (StrMap.lookup vm.state_variables state_name).getD []
  { vm with state_variables :=
      StrMap.insert vm.state_variables state_name (StrMap.insert inner name value) }

/-- `VariableManager::getVariable` : local binding for the state first,
then the global binding, else `std::nullopt`. -/
def getVariable (vm : VariableManager) (state_name name : String) : Option VariableValue :=
  match StrMap.lookup vm.state_variables state_name with
  | some inner =>
      match StrMap.lookup inner name with
      | some v => some v
      | none => StrMap.lookup vm.global_variables name
  | none => StrMap.lookup vm.global_variables name

/-- `VariableManager::getGlobalVariable`. -/
def getGlobalVariable (vm : VariableManager) (name : String) : Option VariableValue :=
  StrMap.lookup vm.global_variables name

/-- `VariableManager::getStateVariable`. -/
def getStateVariable (vm : VariableManager) (state_name name : String) : Option VariableValue :=
  match StrMap.lookup vm.state_variables state_name with
  | some inner => StrMap.lookup inner name
  | none => none

/-- `VariableManager::hasVariable` : local first, then global. -/
def hasVariable (vm : VariableManager) (state_name name : String) : Bool :=
  match StrMap.lookup vm.state_variables state_name with
  | some inner =>
      match StrMap.lookup inner name with
      | some _ => true
      | none => (StrMap.lookup vm.global_variables name).isSome
  | none => (StrMap.lookup vm.global_variables name).isSome

/-- `VariableManager::copyStateVariables` : if `from_state` has a local
map, assign a copy of it wholesale to `to_state` (`state_variables[to] =
from_it->second`); otherwise do nothing. -/
def copyStateVariables (vm : VariableManager) (from_state to_state : String) :
    VariableManager :=
  match StrMap.lookup vm.state_variables from_state with
  | some inner => { vm with state_variables := StrMap.insert vm.state_variables to_state inner }
  | none => vm

/-- The handle denoted by the `const std::map&` that
`VariableManager::getGlobalVariables` / `getStateVariables` return:
either the live global map, the live local map of a state, or the
function-local `static const` empty map. -/
inductive VarsRef : Type where
  | globals
  | stateLocal (state_name : String)
  | staticEmpty

/-- `VariableManager::getGlobalVariables` : returns a reference to the
internal global map. -/
def getGlobalVariablesRef (_vm : VariableManager) : VarsRef := VarsRef.globals

/-- `VariableManager::getStateVariables` : a reference to the state's
live local map when present, else to the shared `static` empty map. -/
def getStateVariablesRef (vm : VariableManager) (state_name : String) : VarsRef :=
  match StrMap.lookup vm.state_variables state_name with
  | some _ => VarsRef.stateLocal state_name
  | none => VarsRef.staticEmpty

/-- Reading through a returned reference at a (possibly later) manager
state: the map object a `VarsRef` denotes, in that state. -/
def derefVars (vm : VariableManager) : VarsRef → StrMap VariableValue
  | VarsRef.globals => vm.global_variables
  | VarsRef.stateLocal s => (StrMap.lookup vm.state_variables s).getD []
  | VarsRef.staticEmpty => []

/-- `StateInfo` (`types.hpp`): the configuration record for one state.
An absent optional callback name is the empty string, as in the parser. -/
structure StateInfo : Type where
  name : String
  /-- the `variables` field of `StateInfo` (initial local variables) -/
  vars : StrMap VariableValue
  on_enter_callback : String
  on_exit_callback : String
  actions : List String

/-- `TransitionInfo` (`types.hpp`). -/
structure TransitionInfo : Type where
  from_state : String
  to_state : String
  event_name : String
  guard_callback : String
  transition_callback : String
  actions : List String
deriving DecidableEq

/-- The post-parse configuration the engine queries (`ConfigParser::Impl`):
states by name, the ordered transition list, the resolved initial state
(empty when none). -/
structure Config : Type where
  states : StrMap StateInfo
  transitions : List TransitionInfo
  initial_state : String

/-- `ConfigParser::findTransition` : first transition in declaration
order matching `(from_state, event_name)`, else `nullptr`. -/
def findTransition (cfg : Config) (from_state event_name : String) : Option TransitionInfo :=
  cfg.transitions.find? (fun t => t.from_state == from_state && t.event_name == event_name)

/-- `ConfigParser::getState` : `none` models the `ConfigException` thrown
for an unknown state. -/
def getState (cfg : Config) (state_name : String) : Option StateInfo :=
  StrMap.lookup cfg.states state_name

/-- `TransitionEvent` (`types.hpp`): the record handed to transition
callbacks and observers.  The timestamp is an abstract clock reading. -/
structure TransitionEvent : Type where
  event_name : String
  from_state : String
  to_state : String
  data : StrMap VariableValue
  timestamp : Nat

/-- One observable side effect of the engine, in execution order:
state-hook and action callables firing (with the callable's identity),
observer notifications (with the observer's identity), the assignment of
`current_state`, and errorreporter-sink calls. -/
inductive Effect : Type where
  | stateCallback (state_name callback_type : String) (callable : Nat)
  | observerStateExit (observer : Nat) (state_name : String)
  | actionCallback (action_name : String) (callable : Nat)
  | transitionCallback (from_state to_state : String) (event : TransitionEvent) (callable : Nat)
  | setCurrentState (state_name : String)
  | observerStateEnter (observer : Nat) (state_name : String)
  | observerTransition (observer : Nat) (event : TransitionEvent)
  | errorHandlerCall (handler : Nat) (message : String)

/-- The exceptions the engine throws (`StateException` /
`ConfigException`), with their message. -/
inductive FsmError : Type where
  | stateException (message : String)
  | configException (message : String)
deriving DecidableEq

/-- `StateMachine::Impl` runtime state.  The `states` map of `Impl` holds
exactly the keys of `config.states` (both are filled from the same parsed
configuration in the constructor), so `config.states` stands for both.
Observers and the optional error handler are identities. -/
structure StateMachine : Type where
  config : Config
  registry : CallbackRegistry
  variable_manager : VariableManager
  current_state : String
  initial_state : String
  started : Bool
  observers : List Nat
  error_handler : Option Nat

/-- The `if (impl_->error_handler) impl_->error_handler(error);` pattern
preceding every `throw`: the sink fires exactly when set. -/
def reportError (m : StateMachine) (message : String) : List Effect :=
  match m.error_handler with
  | some h => [Effect.errorHandlerCall h message]
  | none => []

/-- `StateMachine::hasState` : membership in the machine's state map. -/
def machineHasState (m : StateMachine) (state_name : String) : Bool :=
  (StrMap.lookup m.config.states state_name).isSome

/-- The trace of `CallbackRegistry::callStateCallback`: one firing when a
callable is bound under the key, nothing otherwise. -/
def callStateCallbackEff (r : CallbackRegistry) (state_name callback_type : String) :
    List Effect :=
  match callStateCallback r state_name callback_type with
  | some c => [Effect.stateCallback state_name callback_type c]
  | none => []

/-- The trace of `CallbackRegistry::callTransitionCallback`. -/
def callTransitionCallbackEff (r : CallbackRegistry) (from_state to_state : String)
    (event : TransitionEvent) : List Effect :=
  match callTransitionCallback r from_state to_state with
  | some c => [Effect.transitionCallback from_state to_state event c]
  | none => []

/-- The trace of `CallbackRegistry::callAction`. -/
def callActionEff (r : CallbackRegistry) (action_name : String) : List Effect :=
  match callAction r action_name with
  | some c => [Effect.actionCallback action_name c]
  | none => []

/-- `StateMachine::executeTransitionActions` : each listed action invoked
by name, in declared order (unregistered actions are silent no-ops). -/
def executeTransitionActions (r : CallbackRegistry) (actions : List String) : List Effect :=
  actions.flatMap (callActionEff r)

/-- `StateMachine::executeStateActions` : `getState` (which throws
`ConfigException` for an unknown state — `none` here), then the state's
action list in declared order. -/
def executeStateActions (cfg : Config) (r : CallbackRegistry) (state_name : String) :
    List Effect × Option FsmError :=
  match getState cfg state_name with
  | none => ([], some (FsmError.configException ("State '" ++ state_name ++ "' not found")))
  | some info => (info.actions.flatMap (callActionEff r), none)

/-- `StateMachine::performTransition` (`state_machine.cpp`, lines
326–382), line by line: target-existence check, config-gated old-state
`on_exit`, observer exits, transition actions, transition callback,
current-state switch, registry-gated new-state `on_enter`, new-state
actions, observer enters, observer transitions. -/
def performTransition (m : StateMachine) (event : TransitionEvent) :
    StateMachine × List Effect × Option FsmError :=
  let old_state := m.current_state
  let new_state := event.to_state
  if machineHasState m new_state = false then
    (m, reportError m ("Target state '" ++ new_state ++ "' does not exist"),
      some (FsmError.stateException ("Target state '" ++ new_state ++ "' does not exist")))
  else
    match getState m.config old_state with
    | none => (m, [], some (FsmError.configException ("State '" ++ old_state ++ "' not found")))
    | some old_state_info =>
      let e1 := if old_state_info.on_exit_callback ≠ "" then
                  callStateCallbackEff m.registry old_state "on_exit" else []
      let e2 := m.observers.map (fun o => Effect.observerStateExit o old_state)
      let transition := findTransition m.config old_state event.event_name
      let e3 := match transition with
                | some t => if t.actions ≠ [] then executeTransitionActions m.registry t.actions
                            else []
                | none => []
      let e4 := match transition with
                | some t => if t.transition_callback ≠ "" then
                              callTransitionCallbackEff m.registry old_state new_state event
                            else []
                | none => []
      let m2 := { m with current_state := new_state }
      let e5 := [Effect.setCurrentState new_state]
      let e6 := if hasStateCallback m.registry new_state "on_enter" then
                  callStateCallbackEff m.registry new_state "on_enter" else []
      match executeStateActions m.config m.registry new_state with
      | (e7, some err) => (m2, e1 ++ e2 ++ e3 ++ e4 ++ e5 ++ e6 ++ e7, some err)
      | (e7, none) =>
        let e8 := m.observers.map (fun o => Effect.observerStateEnter o new_state)
        let e9 := m.observers.map (fun o => Effect.observerTransition o event)
        (m2, e1 ++ e2 ++ e3 ++ e4 ++ e5 ++ e6 ++ e7 ++ e8 ++ e9, none)

/-- `StateMachine::triggerEvent(event_name, data)` (`state_machine.cpp`,
lines 223–265).  `now` models `std::chrono::system_clock::now()`. -/
def triggerEvent (m : StateMachine) (event_name : String) (data : StrMap VariableValue)
    (now : Nat) : StateMachine × List Effect × Option FsmError :=
  if m.started = false then
    (m, reportError m "StateMachine is not started",
      some (FsmError.stateException "StateMachine is not started"))
  else if m.current_state = "" then
    (m, reportError m "No current state", some (FsmError.stateException "No current state"))
  else
    match findTransition m.config m.current_state event_name with
    | none => (m, [], none)
    | some transition =>
      if transition.guard_callback ≠ "" ∧
          callGuard m.registry transition.from_state transition.to_state event_name = false then
        (m, [], none)
      else
        performTransition m
          { event_name := event_name
            from_state := m.current_state
            to_state := transition.to_state
            data := data
            timestamp := now }

/-- `StateMachine::start` (`state_machine.cpp`, lines 124–167). -/
def start (m : StateMachine) : StateMachine × List Effect × Option FsmError :=
  if m.started = true then
    (m, reportError m "StateMachine is already started",
      some (FsmError.stateException "StateMachine is already started"))
  else if m.initial_state = "" then
    (m, reportError m "No initial state found in configuration",
      some (FsmError.stateException "No initial state found in configuration"))
  else if machineHasState m m.initial_state = false then
    (m, reportError m ("Initial state '" ++ m.initial_state ++ "' not found"),
      some (FsmError.stateException ("Initial state '" ++ m.initial_state ++ "' not found")))
  else
    let m1 := { m with current_state := m.initial_state }
    let e0 := [Effect.setCurrentState m.initial_state]
    let e1 := if hasStateCallback m.registry m1.current_state "on_enter" then
                callStateCallbackEff m.registry m1.current_state "on_enter" else []
    match executeStateActions m.config m.registry m1.current_state with
    | (e2, some err) => (m1, e0 ++ e1 ++ e2, some err)
    | (e2, none) =>
      let e3 := m.observers.map (fun o => Effect.observerStateEnter o m1.current_state)
      ({ m1 with started := true }, e0 ++ e1 ++ e2 ++ e3, none)

/-- `StateMachine::getVariable` : resolve through the `VariableManager`
with the current state as scope; a miss reports to the error handler and
throws. -/
def machineGetVariable (m : StateMachine) (name : String) :
    List Effect × Except FsmError VariableValue :=
  match getVariable m.variable_manager m.current_state name with
  | some v => ([], Except.ok v)
  | none =>
      (reportError m ("Variable '" ++ name ++ "' not found"),
        Except.error (FsmError.stateException ("Variable '" ++ name ++ "' not found")))

/-- `StateMachine::setVariable` : a current state routes the write to the
state-local tier, otherwise to the global tier. -/
def machineSetVariable (m : StateMachine) (name : String) (value : VariableValue) :
    StateMachine :=
  if m.current_state ≠ "" then
    { m with variable_manager := setStateVariable m.variable_manager m.current_state name value }
  else
    { m with variable_manager := setGlobalVariable m.variable_manager name value }

/-- The test predicate "an invocation of the state callback of
`state_name` with hook kind `callback_type` appears": matches exactly the
`Effect.stateCallback` entries for that key. -/
def isStateCB (state_name callback_type : String) : Effect → Bool
  | Effect.stateCallback s k _ => s == state_name && k == callback_type
  | Effect.observerStateExit _ _ => false
  | Effect.actionCallback _ _ => false
  | Effect.transitionCallback _ _ _ _ => false
  | Effect.setCurrentState _ => false
  | Effect.observerStateEnter _ _ => false
  | Effect.observerTransition _ _ => false
  | Effect.errorHandlerCall _ _ => false

/-- Registry with nothing registered (fresh `CallbackRegistry`). -/
def emptyRegistry : CallbackRegistry := ⟨[], [], [], []⟩

/-- Fresh `VariableManager`. -/
def vmEmpty : VariableManager := ⟨[], []⟩

/-- Fixture: a manager holding one local binding `x := 5` for state `S`. -/
def vmWitness : VariableManager := setStateVariable vmEmpty "S" "x" (VariableValue.int 5)

/-- Fixture state `A`: configured `on_exit` name, one action. -/
def stateA1 : StateInfo := ⟨"A", [], "", "exitA", ["a1"]⟩

/-- Fixture state `B`: configured `on_enter` name, one action. -/
def stateB1 : StateInfo := ⟨"B", [], "enterB", "", ["b1"]⟩

/-- Fixture transition `A --go--> B`, unguarded, with a transition
callback name and one action. -/
def transAB1 : TransitionInfo := ⟨"A", "B", "go", "", "tcb", ["t1"]⟩

/-- Fixture machine for the transition-protocol witness: running in `A`,
two observers, all relevant callbacks registered. -/
def M1 : StateMachine :=
  ⟨⟨[("A", stateA1), ("B", stateB1)], [transAB1], "A"⟩,
   ⟨[("A:on_exit", 1), ("B:on_enter", 2)], [("A:B", 3)], [],
    [("a1", 4), ("b1", 5), ("t1", 6)]⟩,
   vmEmpty, "A", "A", true, [10, 11], none⟩

/-- Fixture transition `A --go--> B` declaring guard name `g`. -/
def transAB2 : TransitionInfo := ⟨"A", "B", "go", "g", "", []⟩

/-- Fixture machine for the fail-closed-guard witness: running in `A`,
guard declared in config but nothing registered. -/
def M2 : StateMachine :=
  ⟨⟨[("A", ⟨"A", [], "", "", []⟩), ("B", ⟨"B", [], "", "", []⟩)], [transAB2], "A"⟩,
   emptyRegistry, vmEmpty, "A", "A", true, [10], some 42⟩

/-- Fixture state `A` for the corrected on-exit claim: no configured
`on_exit` name. -/
def stateA5 : StateInfo := ⟨"A", [], "", "", []⟩

/-- Fixture state `B` for the corrected on-exit claim. -/
def stateB5 : StateInfo := ⟨"B", [], "", "", []⟩

/-- Fixture transition `A --go--> B`, fully bare. -/
def transAB5 : TransitionInfo := ⟨"A", "B", "go", "", "", []⟩

/-- Fixture machine for the corrected on-exit claim: state `A` declares
no `on_exit` name, yet an on-exit callback (identity 7) is registered for
`A` in the registry. -/
def M5 : StateMachine :=
  ⟨⟨[("A", stateA5), ("B", stateB5)], [transAB5], "A"⟩,
   ⟨[("A:on_exit", 7)], [], [], []⟩, vmEmpty, "A", "A", true, [], none⟩

-- ============================================================================
-- Helper lemmas
-- ============================================================================

theorem StrMap.lookup_insert_self {α : Type} (m : StrMap α) (k : String) (v : α) :
    StrMap.lookup (StrMap.insert m k v) k = some v := by
  induction m with
  | nil => simp [StrMap.insert, StrMap.lookup]
  | cons hd tl ih =>
    obtain ⟨k', v'⟩ := hd
    by_cases h : k' = k <;> simp [StrMap.insert, StrMap.lookup, h, ih]

-- ============================================================================
-- Claim theorems
-- ============================================================================

/-- C10: a default-constructed `VariableValue` carries the `INT` tag with
payload `0`: `asInt` returns `0`, the other typed accessors fail with a
type-mismatch error, and `toString` renders `"0"`. -/
theorem default_variable_value_int_zero :
    VariableValue.default = VariableValue.int 0 ∧
    VariableValue.asInt VariableValue.default = Except.ok 0 ∧
    VariableValue.asFloat VariableValue.default = Except.error AccessError.typeMismatch ∧
    VariableValue.asString VariableValue.default = Except.error AccessError.typeMismatch ∧
    VariableValue.asBool VariableValue.default = Except.error AccessError.typeMismatch ∧
    VariableValue.toString VariableValue.default = "0" :=
  ⟨rfl, rfl, rfl, rfl, rfl, rfl⟩

/-- C6: variable resolution is exactly local-shadows-global:
`VariableManager::getVariable` returns the state-local binding when one
exists, else the global binding, else nothing; and
`StateMachine::getVariable` fails with the variable-not-found error
precisely when the manager resolves to nothing. -/
theorem getVariable_local_shadows_global (vm : VariableManager)
    (state_name name : String) (m : StateMachine) (n : String) :
    getVariable vm state_name name =
      (match getStateVariable vm state_name name with
       | some v => some v
       | none => getGlobalVariable vm name) ∧
    ((machineGetVariable m n).2 =
        Except.error (FsmError.stateException ("Variable '" ++ n ++ "' not found"))
      ↔ getVariable m.variable_manager m.current_state n = none) := by
  constructor
  · unfold getVariable getStateVariable getGlobalVariable
    cases hs : StrMap.lookup vm.state_variables state_name with
    | none => simp
    | some inner => cases hv : StrMap.lookup inner name <;> simp
  · cases hv : getVariable m.variable_manager m.current_state n <;>
      simp [machineGetVariable, hv]

/-- C9: `copyStateVariables(from, to)` duplicates every local binding of
`from` into `to`: afterwards each name bound locally in `from` is bound
in `to` to the same value, and `to`'s local map is (an exact copy of)
`from`'s, overwriting whatever `to` held. -/
theorem copyStateVariables_duplicates (vm : VariableManager)
    (from_state to_state name : String) (v : VariableValue)
    (h : getStateVariable vm from_state name = some v) :
    getStateVariable (copyStateVariables vm from_state to_state) to_state name = some v ∧
    StrMap.lookup (copyStateVariables vm from_state to_state).state_variables to_state
      = StrMap.lookup vm.state_variables from_state := by
  unfold getStateVariable at h
  cases hf : StrMap.lookup vm.state_variables from_state with
  | none => rw [hf] at h; exact absurd h (by simp)
  | some inner =>
    rw [hf] at h
    unfold copyStateVariables
    rw [hf]
    constructor
    · unfold getStateVariable
      simp only [StrMap.lookup_insert_self]
      exact h
    · simp only [StrMap.lookup_insert_self, hf]

/-- C9 witness: copying state `S` (holding `x := 5`) into `T` makes
`x := 5` visible in `T`, and `T`'s map equals `S`'s. -/
theorem copyStateVariables_duplicates_witness :
    getStateVariable (copyStateVariables vmWitness "S" "T") "T" "x"
      = some (VariableValue.int 5) ∧
    StrMap.lookup (copyStateVariables vmWitness "S" "T").state_variables "T"
      = StrMap.lookup vmWitness.state_variables "S" :=
  copyStateVariables_duplicates vmWitness "S" "T" "x" (VariableValue.int 5) rfl

/-- C4 counterexample: `getGlobalVariables()` does not return a
point-in-time copy.  Reading through the handle returned on an empty
manager after one subsequent `setGlobalVariable` no longer yields the
call-time contents (the empty map): the claimed snapshot property fails
on this concrete input. -/
theorem getGlobalVariables_reference_not_snapshot :
    ¬ (derefVars (setGlobalVariable vmEmpty "x" (VariableValue.int 1))
         (getGlobalVariablesRef vmEmpty)
        = derefVars vmEmpty (getGlobalVariablesRef vmEmpty)) := by
  simp [derefVars, getGlobalVariablesRef, setGlobalVariable, vmEmpty, StrMap.insert]

/-- C4 amended: `getGlobalVariables()`/`getStateVariables(state)` return
references to the live internal maps, not copies: the map observed
through the returned reference after a subsequent write equals the
store's then-current contents, so the write is visible through it (here
shown for one subsequent `setGlobalVariable`/`setStateVariable`; for a
state with no local map at call time, `getStateVariables` instead
returns a reference to a shared static empty map). -/
theorem getVariables_live_reference (vm : VariableManager)
    (name state_name n2 : String) (v : VariableValue) (inner : StrMap VariableValue)
    (hst : StrMap.lookup vm.state_variables state_name = some inner) :
    derefVars (setGlobalVariable vm name v) (getGlobalVariablesRef vm)
      = (setGlobalVariable vm name v).global_variables ∧
    StrMap.lookup (derefVars (setGlobalVariable vm name v) (getGlobalVariablesRef vm)) name
      = some v ∧
    derefVars (setStateVariable vm state_name n2 v) (getStateVariablesRef vm state_name)
      = (StrMap.lookup (setStateVariable vm state_name n2 v).state_variables state_name).getD [] ∧
    StrMap.lookup
      (derefVars (setStateVariable vm state_name n2 v) (getStateVariablesRef vm state_name)) n2
      = some v := by
  refine ⟨rfl, ?_, ?_, ?_⟩
  · simp [derefVars, getGlobalVariablesRef, setGlobalVariable, StrMap.lookup_insert_self]
  · simp [getStateVariablesRef, hst, derefVars]
  · simp [getStateVariablesRef, hst, derefVars, setStateVariable,
      StrMap.lookup_insert_self]

/-- C4 amended witness: on a manager holding a local map for `S`, a
subsequent global and local write are both visible through the
previously returned references. -/
theorem getVariables_live_reference_witness :
    derefVars (setGlobalVariable vmWitness "y" (VariableValue.int 2))
      (getGlobalVariablesRef vmWitness)
      = (setGlobalVariable vmWitness "y" (VariableValue.int 2)).global_variables ∧
    StrMap.lookup (derefVars (setGlobalVariable vmWitness "y" (VariableValue.int 2))
      (getGlobalVariablesRef vmWitness)) "y" = some (VariableValue.int 2) ∧
    derefVars (setStateVariable vmWitness "S" "z" (VariableValue.int 2))
      (getStateVariablesRef vmWitness "S")
      = (StrMap.lookup (setStateVariable vmWitness "S" "z"
          (VariableValue.int 2)).state_variables "S").getD [] ∧
    StrMap.lookup (derefVars (setStateVariable vmWitness "S" "z" (VariableValue.int 2))
      (getStateVariablesRef vmWitness "S")) "z" = some (VariableValue.int 2) :=
  getVariables_live_reference vmWitness "y" "S" "z" (VariableValue.int 2)
    [("x", VariableValue.int 5)] rfl

/-- C8: in every registry namespace, registering under a key that already
has a binding overwrites it, so invocation fires only the last-registered
callable, and registering an empty callable is silently ignored, leaving
the registry unchanged. -/
theorem registration_overwrite_and_null_ignore (r : CallbackRegistry)
    (s k fs ts e a : String) (c1 c2 : Nat) (g1 g2 : GuardCB) :
    callStateCallback
      (registerStateCallback (registerStateCallback r s k (some c1)) s k (some c2)) s k
      = some c2 ∧
    registerStateCallback r s k none = r ∧
    callTransitionCallback
      (registerTransitionCallback (registerTransitionCallback r fs ts (some c1)) fs ts (some c2))
      fs ts = some c2 ∧
    registerTransitionCallback r fs ts none = r ∧
    StrMap.lookup
      (registerGuard (registerGuard r fs ts e (some g1)) fs ts e (some g2)).guards
      (makeGuardKey fs ts e) = some g2 ∧
    callGuard (registerGuard (registerGuard r fs ts e (some g1)) fs ts e (some g2)) fs ts e
      = g2.ret ∧
    registerGuard r fs ts e none = r ∧
    callAction (registerAction (registerAction r a (some c1)) a (some c2)) a = some c2 ∧
    registerAction r a none = r := by
  refine ⟨?_, rfl, ?_, rfl, ?_, ?_, rfl, ?_, rfl⟩
  · simp [callStateCallback, registerStateCallback, StrMap.lookup_insert_self]
  · simp [callTransitionCallback, registerTransitionCallback, StrMap.lookup_insert_self]
  · simp [registerGuard, StrMap.lookup_insert_self]
  · simp [callGuard, registerGuard, StrMap.lookup_insert_self]
  · simp [callAction, registerAction, StrMap.lookup_insert_self]

theorem executeTransitionActions_if_eq_flatMap (r : CallbackRegistry) (acts : List String) :
    (if acts ≠ [] then executeTransitionActions r acts else [])
      = acts.flatMap (callActionEff r) := by
  cases acts <;> simp [executeTransitionActions]

theorem hasStateCallback_if_eq_eff (r : CallbackRegistry) (s k : String) :
    (if hasStateCallback r s k then callStateCallbackEff r s k else [])
      = callStateCallbackEff r s k := by
  unfold hasStateCallback callStateCallbackEff callStateCallback
  cases StrMap.lookup r.state_callbacks (makeStateCallbackKey s k) <;> simp

/-- Shared decomposition of a successful `triggerEvent`: when the machine
is running, a transition is found for the current state and event, its
guard (if declared) passes, and both the old and the target state are
present in the configuration, the call switches the current state to the
target and emits exactly the nine-segment effect trace of the transition
protocol, raising no error. -/
theorem triggerEvent_success_trace (m : StateMachine) (event_name : String)
    (data : StrMap VariableValue) (now : Nat) (t : TransitionInfo)
    (old_info new_info : StateInfo)
    (hs : m.started = true) (hc : m.current_state ≠ "")
    (hf : findTransition m.config m.current_state event_name = some t)
    (hg : t.guard_callback = "" ∨
      callGuard m.registry t.from_state t.to_state event_name = true)
    (hold : StrMap.lookup m.config.states m.current_state = some old_info)
    (hnew : StrMap.lookup m.config.states t.to_state = some new_info) :
    triggerEvent m event_name data now =
      ({ m with current_state := t.to_state },
        (if old_info.on_exit_callback ≠ "" then
           callStateCallbackEff m.registry m.current_state "on_exit" else []) ++
        m.observers.map (fun o => Effect.observerStateExit o m.current_state) ++
        t.actions.flatMap (callActionEff m.registry) ++
        (if t.transition_callback ≠ "" then
           callTransitionCallbackEff m.registry m.current_state t.to_state
             ⟨event_name, m.current_state, t.to_state, data, now⟩ else []) ++
        [Effect.setCurrentState t.to_state] ++
        callStateCallbackEff m.registry t.to_state "on_enter" ++
        new_info.actions.flatMap (callActionEff m.registry) ++
        m.observers.map (fun o => Effect.observerStateEnter o t.to_state) ++
        m.observers.map (fun o => Effect.observerTransition o
          ⟨event_name, m.current_state, t.to_state, data, now⟩),
        none) := by
  have hguard : ¬ (t.guard_callback ≠ "" ∧
      callGuard m.registry t.from_state t.to_state event_name = false) := by
    rcases hg with h0 | h1
    · intro hcontra; exact hcontra.1 h0
    · intro hcontra; rw [h1] at hcontra; exact absurd hcontra.2 (by simp)
  unfold triggerEvent
  rw [hs, if_neg (by simp), if_neg hc]
  simp only [hf]
  rw [if_neg hguard]
  unfold performTransition
  simp only [machineHasState, getState, hold, hnew, Option.isSome_some,
    Bool.true_eq_false, if_neg, if_false, executeStateActions,
    executeTransitionActions_if_eq_flatMap, hasStateCallback_if_eq_eff, hf, hs]

/-- C1: for a triggered event whose transition is found and whose guard
(if any) passes, `triggerEvent` performs the transition protocol in
exactly this fixed order — (1) config-declared old-state on-exit
callback, (2) observer state-exit hooks with the old state, (3) the
transition's actions in declared order, (4) the transition callback with
the `TransitionEvent`, (5) the switch of current-state to the target, (6)
new-state on-enter callback, (7) the new state's actions in declared
order, (8) observer state-enter hooks with the new state, (9) observer
transition hooks with the `TransitionEvent` — and nothing else. -/
theorem transition_protocol_order (m : StateMachine) (event_name : String)
    (data : StrMap VariableValue) (now : Nat) (t : TransitionInfo)
    (old_info new_info : StateInfo)
    (hs : m.started = true) (hc : m.current_state ≠ "")
    (hf : findTransition m.config m.current_state event_name = some t)
    (hg : t.guard_callback = "" ∨
      callGuard m.registry t.from_state t.to_state event_name = true)
    (hold : StrMap.lookup m.config.states m.current_state = some old_info)
    (hnew : StrMap.lookup m.config.states t.to_state = some new_info) :
    triggerEvent m event_name data now =
      ({ m with current_state := t.to_state },
        (if old_info.on_exit_callback ≠ "" then
           callStateCallbackEff m.registry m.current_state "on_exit" else []) ++
        m.observers.map (fun o => Effect.observerStateExit o m.current_state) ++
        t.actions.flatMap (callActionEff m.registry) ++
        (if t.transition_callback ≠ "" then
           callTransitionCallbackEff m.registry m.current_state t.to_state
             ⟨event_name, m.current_state, t.to_state, data, now⟩ else []) ++
        [Effect.setCurrentState t.to_state] ++
        callStateCallbackEff m.registry t.to_state "on_enter" ++
        new_info.actions.flatMap (callActionEff m.registry) ++
        m.observers.map (fun o => Effect.observerStateEnter o t.to_state) ++
        m.observers.map (fun o => Effect.observerTransition o
          ⟨event_name, m.current_state, t.to_state, data, now⟩),
        none) :=
  triggerEvent_success_trace m event_name data now t old_info new_info hs hc hf hg hold hnew

/-- C1 witness: on the fixture machine the full protocol evaluates to the
literal twelve-effect trace in the claimed order. -/
theorem transition_protocol_order_witness :
    triggerEvent M1 "go" [] 0 =
      ({ M1 with current_state := "B" },
       [Effect.stateCallback "A" "on_exit" 1,
        Effect.observerStateExit 10 "A", Effect.observerStateExit 11 "A",
        Effect.actionCallback "t1" 6,
        Effect.transitionCallback "A" "B" ⟨"go", "A", "B", [], 0⟩ 3,
        Effect.setCurrentState "B",
        Effect.stateCallback "B" "on_enter" 2,
        Effect.actionCallback "b1" 5,
        Effect.observerStateEnter 10 "B", Effect.observerStateEnter 11 "B",
        Effect.observerTransition 10 ⟨"go", "A", "B", [], 0⟩,
        Effect.observerTransition 11 ⟨"go", "A", "B", [], 0⟩],
       none) :=
  transition_protocol_order M1 "go" [] 0 transAB1 stateA1 stateB1 rfl (by decide)
    rfl (Or.inl rfl) rfl rfl

/-- C2: a transition that declares a guard name whose key has no
registered guard callable is blocked exactly as by a registered guard
returning `false`: `triggerEvent` leaves the machine unchanged, emits no
effects, and raises no error — in both scenarios. -/
theorem unregistered_guard_fails_closed (m : StateMachine) (event_name : String)
    (data : StrMap VariableValue) (now : Nat) (t : TransitionInfo)
    (hs : m.started = true) (hc : m.current_state ≠ "")
    (hf : findTransition m.config m.current_state event_name = some t)
    (hg : t.guard_callback ≠ "")
    (hr : StrMap.lookup m.registry.guards
      (makeGuardKey t.from_state t.to_state event_name) = none) :
    triggerEvent m event_name data now = (m, [], none) ∧
    ∀ g : GuardCB, g.ret = false →
      triggerEvent
        { m with registry :=
            registerGuard m.registry t.from_state t.to_state event_name (some g) }
        event_name data now
      = ({ m with registry :=
            registerGuard m.registry t.from_state t.to_state event_name (some g) },
         [], none) := by
  constructor
  · have hcall : callGuard m.registry t.from_state t.to_state event_name = false := by
      simp [callGuard, hr]
    simp [triggerEvent, hs, hc, hf, hg, hcall]
  · intro g hgret
    have hcall : callGuard
        (registerGuard m.registry t.from_state t.to_state event_name (some g))
        t.from_state t.to_state event_name = false := by
      simp [callGuard, registerGuard, StrMap.lookup_insert_self, hgret]
    simp [triggerEvent, hs, hc, hf, hg, hcall]

/-- C2 witness: on the fixture machine with a declared but unregistered
guard, the event is blocked; registering a `false` guard blocks it
identically. -/
theorem unregistered_guard_fails_closed_witness :
    triggerEvent M2 "go" [] 0 = (M2, [], none) ∧
    triggerEvent
      { M2 with registry := registerGuard M2.registry "A" "B" "go" (some ⟨9, false⟩) }
      "go" [] 0
    = ({ M2 with registry := registerGuard M2.registry "A" "B" "go" (some ⟨9, false⟩) },
       [], none) :=
  ⟨(unregistered_guard_fails_closed M2 "go" [] 0 transAB2 rfl (by decide) rfl
      (by decide) rfl).1,
   (unregistered_guard_fails_closed M2 "go" [] 0 transAB2 rfl (by decide) rfl
      (by decide) rfl).2 ⟨9, false⟩ rfl⟩

/-- C3: when no transition exists for the current state and the event,
`triggerEvent` is a no-op for a running machine: state unchanged, no
effects of any kind, no error. -/
theorem no_transition_is_noop (m : StateMachine) (event_name : String)
    (data : StrMap VariableValue) (now : Nat)
    (hs : m.started = true) (hc : m.current_state ≠ "")
    (hf : findTransition m.config m.current_state event_name = none) :
    triggerEvent m event_name data now = (m, [], none) := by
  simp [triggerEvent, hs, hc, hf]

/-- C3 witness: the fixture machine ignores an event with no matching
transition. -/
theorem no_transition_is_noop_witness :
    triggerEvent M2 "nope" [] 0 = (M2, [], none) :=
  no_transition_is_noop M2 "nope" [] 0 rfl (by decide) rfl

/-- C7: `start()` on an already-started machine fails with the lifecycle
error without mutating the machine; the only emitted effect is the
error-handler call (when a handler is set, it receives the descriptive
message), and the failure is raised regardless. -/
theorem start_on_started_fails (m : StateMachine) (h : m.started = true) :
    start m = (m, reportError m "StateMachine is already started",
      some (FsmError.stateException "StateMachine is already started")) ∧
    (∀ hnd : Nat, m.error_handler = some hnd →
      reportError m "StateMachine is already started"
        = [Effect.errorHandlerCall hnd "StateMachine is already started"]) := by
  constructor
  · unfold start
    rw [if_pos h]
  · intro hnd hh
    simp [reportError, hh]

/-- C7 witness: starting the already-running fixture machine (which has
handler 42 set) reports to the handler and fails, leaving the machine
untouched. -/
theorem start_on_started_fails_witness :
    start M2 = (M2, [Effect.errorHandlerCall 42 "StateMachine is already started"],
      some (FsmError.stateException "StateMachine is already started")) :=
  (start_on_started_fails M2 rfl).1

theorem any_isStateCB_callActionEff (r : CallbackRegistry) (a s k : String) :
    (callActionEff r a).any (isStateCB s k) = false := by
  unfold callActionEff
  cases callAction r a <;> simp [isStateCB]

theorem any_isStateCB_flatMap_actions (r : CallbackRegistry) (acts : List String)
    (s k : String) :
    (acts.flatMap (callActionEff r)).any (isStateCB s k) = false := by
  induction acts with
  | nil => rfl
  | cons a rest ih =>
    simp only [List.flatMap_cons, List.any_append, ih,
      any_isStateCB_callActionEff, Bool.or_self]

theorem any_isStateCB_exit_of_enter (r : CallbackRegistry) (ns s : String) :
    (callStateCallbackEff r ns "on_enter").any (isStateCB s "on_exit") = false := by
  unfold callStateCallbackEff
  cases callStateCallback r ns "on_enter" with
  | none => rfl
  | some c =>
    have hk : (("on_enter" : String) == "on_exit") = false := by decide
    simp [isStateCB, hk]

theorem any_isStateCB_exit_self (r : CallbackRegistry) (s : String) :
    (callStateCallbackEff r s "on_exit").any (isStateCB s "on_exit")
      = hasStateCallback r s "on_exit" := by
  unfold callStateCallbackEff callStateCallback hasStateCallback
  cases h : StrMap.lookup r.state_callbacks (makeStateCallbackKey s "on_exit") <;>
    simp [h, isStateCB]

theorem any_isStateCB_transCBEff (r : CallbackRegistry) (fs ts : String)
    (ev : TransitionEvent) (s k : String) :
    (callTransitionCallbackEff r fs ts ev).any (isStateCB s k) = false := by
  unfold callTransitionCallbackEff
  cases callTransitionCallback r fs ts <;> simp [isStateCB]

theorem any_isStateCB_map_obsExit (l : List Nat) (st s k : String) :
    (l.map (fun o => Effect.observerStateExit o st)).any (isStateCB s k) = false := by
  induction l with
  | nil => rfl
  | cons o rest ih => simp [isStateCB, ih]

theorem any_isStateCB_map_obsEnter (l : List Nat) (st s k : String) :
    (l.map (fun o => Effect.observerStateEnter o st)).any (isStateCB s k) = false := by
  induction l with
  | nil => rfl
  | cons o rest ih => simp [isStateCB, ih]

theorem any_isStateCB_map_obsTrans (l : List Nat) (ev : TransitionEvent) (s k : String) :
    (l.map (fun o => Effect.observerTransition o ev)).any (isStateCB s k) = false := by
  induction l with
  | nil => rfl
  | cons o rest ih => simp [isStateCB, ih]

theorem any_isStateCB_exit_ite (r : CallbackRegistry) (s : String) (c : Prop)
    [Decidable c] :
    ((if c then callStateCallbackEff r s "on_exit" else []).any (isStateCB s "on_exit")
        = true)
      ↔ (c ∧ hasStateCallback r s "on_exit" = true) := by
  by_cases h : c
  · simp [h, any_isStateCB_exit_self]
  · simp [h]

theorem any_isStateCB_transCBEff_ite (r : CallbackRegistry) (fs ts : String)
    (ev : TransitionEvent) (s k : String) (c : Prop) [Decidable c] :
    (if c then callTransitionCallbackEff r fs ts ev else []).any (isStateCB s k)
      = false := by
  by_cases h : c <;> simp [h, any_isStateCB_transCBEff]

theorem any_isStateCB_setCurrentState (st s k : String) :
    ([Effect.setCurrentState st].any (isStateCB s k)) = false := rfl

/-- C5 counterexample: "the old-state on-exit callback is invoked iff one
is registered" is false on the fixture machine `M5` — an on-exit callback
is registered for state `A`, but since `A`'s configuration declares no
`on_exit` name, triggering the `A --go--> B` transition fires no on-exit
callback at all. -/
theorem on_exit_registration_alone_insufficient :
    ¬ (((triggerEvent M5 "go" [] 0).2.1.any (isStateCB "A" "on_exit") = true)
        ↔ hasStateCallback M5.registry "A" "on_exit" = true) := by
  decide

/-- C5 amended: during the transition protocol, the old state's on-exit
callback fires iff the old state's configuration declares a (non-empty)
`on_exit` name AND an on-exit callback is registered for that state in
the `CallbackRegistry`; config presence gates reaching the call,
registration gates the call itself. -/
theorem on_exit_fires_iff_configured_and_registered
    (m : StateMachine) (event_name : String) (data : StrMap VariableValue) (now : Nat)
    (t : TransitionInfo) (old_info new_info : StateInfo)
    (hs : m.started = true) (hc : m.current_state ≠ "")
    (hf : findTransition m.config m.current_state event_name = some t)
    (hg : t.guard_callback = "" ∨
      callGuard m.registry t.from_state t.to_state event_name = true)
    (hold : StrMap.lookup m.config.states m.current_state = some old_info)
    (hnew : StrMap.lookup m.config.states t.to_state = some new_info) :
    ((triggerEvent m event_name data now).2.1.any (isStateCB m.current_state "on_exit")
        = true)
      ↔ (old_info.on_exit_callback ≠ "" ∧
          hasStateCallback m.registry m.current_state "on_exit" = true) := by
  rw [triggerEvent_success_trace m event_name data now t old_info new_info
    hs hc hf hg hold hnew]
  simp only [List.any_append, any_isStateCB_map_obsExit, any_isStateCB_flatMap_actions,
    any_isStateCB_transCBEff_ite, any_isStateCB_exit_of_enter, any_isStateCB_map_obsEnter,
    any_isStateCB_map_obsTrans, any_isStateCB_setCurrentState, Bool.or_false,
    Bool.false_or]
  exact any_isStateCB_exit_ite m.registry m.current_state _

/-- C5 amended witness: on `M5` (no configured `on_exit` name, callback
registered) the protocol fires no on-exit callback, matching the amended
condition. -/
theorem on_exit_fires_iff_configured_and_registered_witness :
    ((triggerEvent M5 "go" [] 0).2.1.any (isStateCB "A" "on_exit") = true)
      ↔ (stateA5.on_exit_callback ≠ "" ∧
          hasStateCallback M5.registry "A" "on_exit" = true) :=
  on_exit_fires_iff_configured_and_registered M5 "go" [] 0 transAB5 stateA5 stateB5
    rfl (by decide) rfl (Or.inl rfl) rfl rfl

end FSMConfig
